import Mathlib

/-!
# Access-control and accountability core — shallow embedding

A shallow embedding, in Lean 4, of the access-control and accountability
core of a multi-facility healthcare information system: role-based
permission evaluation (`has_permission` / `has_role`), the facility grant
ledger (`StaffFacility.has_access`, `Staff.has_facility_access`,
`Staff.get_accessible_facilities`, `assign_staff`), the session facility
selector (`set_current_facility` / `get_current_facility`), and the audit
recorder (`audit_log`, `AuditLog.change_summary`).

ORM tables are modelled as Lists of row structures holding the columns the
access-control core reads; SQL queries become List filters evaluated in
table (insertion) order, which is what the underlying store returns for
the queries in question, none of which carries an ORDER BY clause.
Python truthiness of `None`, `0`, `[]` and an empty dict is made explicit
at each use site.  An authenticated request carries `some staff`; an
unauthenticated one carries `none` (the Flask-Login anonymous user).
-/

namespace PHC

/-- A row of the `permissions` table (roles.py, class `Permission`);
only the columns the authorization logic reads are modelled. -/
structure Permission where
  id : Nat
  code : String
deriving DecidableEq

/-- A row of the `roles` table (roles.py, class `Role`), with its
many-to-many `permissions` relationship materialised as the list of
related Permission rows. -/
structure Role where
  id : Nat
  name : String
  permissions : List Permission
deriving DecidableEq

/-- A row of the `staff` table (staff.py, class `Staff`), with the
`role` relationship materialised; columns irrelevant to access control
(department, password hash, timestamps) are omitted. -/
structure Staff where
  id : Nat
  email : String
  role : Option Role
  active : Bool
deriving DecidableEq

/-- A row of the `facilities` table (facilities.py, class `Facility`);
only the columns the access-control core reads are modelled. -/
structure Facility where
  id : Nat
  facility_code : String
  name : String
  is_active : Bool
deriving DecidableEq

/-- A row of the `staff_facilities` table (facilities.py, class
`StaffFacility`): the facility grant ledger. -/
structure StaffFacility where
  id : Nat
  staff_id : Nat
  facility_id : Nat
  can_access : Bool
  can_manage_staff : Bool
  can_manage_facility : Bool
  can_view_reports : Bool
  can_export_data : Bool
  assigned_by_id : Option Nat
  is_active : Bool
deriving DecidableEq

/-- The persistent store as read by the access-control core: the two
tables consulted by grant-ledger queries, in insertion order. -/
structure DB where
  facilities : List Facility
  staff_facilities : List StaffFacility
deriving DecidableEq

/-! ## Permission catalog (security.py, `PERMISSIONS`) -/

/-- security.py `PERMISSIONS`: the permission-code catalog, a dict from
code to description, in source order. -/
def PERMISSIONS : List (String × String) := [
  ("patient_create", "Create new patients"),
  ("patient_read", "View patient information"),
  ("patient_update", "Update patient information"),
  ("patient_delete", "Delete patient records"),
  ("visit_create", "Create new visits"),
  ("visit_read", "View visit information"),
  ("visit_update", "Update visit information"),
  ("visit_close", "Close visits"),
  ("clinical_notes_create", "Create clinical notes"),
  ("clinical_notes_read", "Read clinical notes"),
  ("clinical_notes_update", "Update clinical notes"),
  ("orders_create", "Create lab/radiology orders"),
  ("orders_read", "View orders"),
  ("orders_update", "Update orders"),
  ("results_post", "Post lab/radiology results"),
  ("prescription_create", "Create prescriptions"),
  ("prescription_dispense", "Dispense medications"),
  ("inventory_manage", "Manage inventory"),
  ("invoice_create", "Create invoices"),
  ("invoice_finalize", "Finalize invoices"),
  ("payment_process", "Process payments"),
  ("claims_manage", "Manage insurance claims"),
  ("referral_create", "Create referrals"),
  ("referral_manage", "Manage referrals"),
  ("staff_manage", "Manage staff"),
  ("schedule_manage", "Manage schedules"),
  ("ticket_create", "Create helpdesk tickets"),
  ("ticket_assign", "Assign tickets"),
  ("ticket_resolve", "Resolve tickets"),
  ("incident_report", "Report quality incidents"),
  ("incident_manage", "Manage quality incidents"),
  ("audit_conduct", "Conduct audits"),
  ("workorder_create", "Create work orders"),
  ("workorder_manage", "Manage work orders"),
  ("asset_manage", "Manage assets"),
  ("reports_view", "View reports"),
  ("settings_manage", "Manage system settings"),
  ("user_manage", "Manage users and roles")]

/-- security.py `ROLE_PERMISSIONS['superadmin']`: the superadmin role is
seeded with every key of the `PERMISSIONS` catalog (`*PERMISSIONS.keys()`). -/
def ROLE_PERMISSIONS_superadmin : List String := PERMISSIONS.map Prod.fst

/-! ## Authorization guard (security.py) -/

/-- Python `str.endswith` on unicode strings: a suffix test on the
character lists. -/
def strEndsWith (s suffix : String) : Bool :=
  suffix.data.isSuffixOf s.data

/-- security.py `has_role(user, role_name)`: False for a missing or
inactive user, else whether the user's role exists and bears the name. -/
def has_role (user : Option Staff) (role_name : String) : Bool :=
  match user with
  | none => false
  | some u =>
    if !u.active then false
    else
      match u.role with
      | some r => r.name == role_name
      | none => false

/-- security.py `has_permission(user, permission_code)`: False for a
missing/inactive user; superadmin passes everything; facility_head passes
every code ending in `_read`; otherwise membership of the code in the
user's role's permission rows (an empty permission list is falsy in
Python and falls through to `return False`, which coincides with `any`
over the empty list). -/
def has_permission (user : Option Staff) (permission_code : String) : Bool :=
  match user with
  | none => false
  | some u =>
    if !u.active then false
    else if has_role user "superadmin" then true
    else if has_role user "facility_head" && strEndsWith permission_code "_read" then true
    else
      match u.role with
      | some r =>
        if r.permissions.isEmpty then false
        else r.permissions.any (fun p => p.code == permission_code)
      | none => false

/-! ## Role registry operations (roles.py, class `Role`) -/

/-- roles.py `Role.add_permission`: append the Permission row to the
role's permission list unless it is already a member. -/
def Role.add_permission (r : Role) (p : Permission) : Role :=
  if p ∈ r.permissions then r
  else { r with permissions := r.permissions ++ [p] }

/-- roles.py `Role.remove_permission`: remove the first occurrence of the
Permission row from the role's permission list if present (Python
`list.remove` removes the first matching element). -/
def Role.remove_permission (r : Role) (p : Permission) : Role :=
  if p ∈ r.permissions then { r with permissions := r.permissions.erase p }
  else r

/-- roles.py `Role.has_permission`: whether any related Permission row
bears the given code. -/
def Role.has_permission (r : Role) (permission_code : String) : Bool :=
  r.permissions.any (fun p => p.code == permission_code)

/-! ## Facility grant ledger (facilities.py / staff.py) -/

/-- facilities.py `StaffFacility.has_access(staff_id, facility_id)`: the
first row matching staff, facility, `can_access == True` and
`is_active == True` — `.first() is not None`.  Note: the query does not
join or test the Facility row itself. -/
def StaffFacility.has_access (db : DB) (staff_id facility_id : Nat) : Bool :=
  (db.staff_facilities.find? (fun sf =>
    sf.staff_id == staff_id && sf.facility_id == facility_id &&
    sf.can_access && sf.is_active)).isSome

/-- staff.py `Staff.has_facility_access(facility_id)`: same query as
`StaffFacility.has_access` with `self.id` as the staff id; the Facility
row's own `is_active` flag is again not consulted. -/
def Staff.has_facility_access (db : DB) (u : Staff) (facility_id : Nat) : Bool :=
  (db.staff_facilities.find? (fun sf =>
    sf.staff_id == u.id && sf.facility_id == facility_id &&
    sf.can_access && sf.is_active)).isSome

/-- staff.py `Staff.get_accessible_facilities`: Facility rows joined to a
matching active `can_access` grant for this staff member and filtered on
`Facility.is_active == True`; the query carries no ORDER BY, so rows come
back in facility-table order. -/
def Staff.get_accessible_facilities (db : DB) (u : Staff) : List Facility :=
  db.facilities.filter (fun f =>
    f.is_active && db.staff_facilities.any (fun sf =>
      sf.staff_id == u.id && sf.facility_id == f.id &&
      sf.can_access && sf.is_active))

/-- The five capability checkboxes of the facility assignment form
(facility.py `assign_staff`, POST branch). -/
structure GrantCaps where
  can_access : Bool
  can_manage_staff : Bool
  can_manage_facility : Bool
  can_view_reports : Bool
  can_export_data : Bool
deriving DecidableEq

/-- Outcome of facility.py `assign_staff`: either the duplicate-pair
warning ("Staff member already assigned to this facility", no row
written) or a successful assignment. -/
inductive AssignOutcome where
  | alreadyAssigned
  | assigned
deriving DecidableEq

/-- facility.py `assign_staff` (POST branch): look for an existing
`StaffFacility` row for the (staff, facility) pair — with no filter on
`is_active` — and refuse if one exists; otherwise insert a fresh row with
the submitted capabilities, `assigned_by_id` the current user, and
`is_active` left to its column default True.  `new_id` stands for the
autoincrement id the insert would receive. -/
def assign_staff (db : DB) (current_user_id new_id staff_id facility_id : Nat)
    (caps : GrantCaps) : DB × AssignOutcome :=
  match db.staff_facilities.find? (fun sf =>
      sf.staff_id == staff_id && sf.facility_id == facility_id) with
  | some _ => (db, .alreadyAssigned)
  | none =>
    let row : StaffFacility := {
      id := new_id
      staff_id := staff_id
      facility_id := facility_id
      can_access := caps.can_access
      can_manage_staff := caps.can_manage_staff
      can_manage_facility := caps.can_manage_facility
      can_view_reports := caps.can_view_reports
      can_export_data := caps.can_export_data
      assigned_by_id := some current_user_id
      is_active := true }
    ({ db with staff_facilities := db.staff_facilities ++ [row] }, .assigned)

/-! ## Session facility selector (utils/session.py) -/

/-- The slice of the Flask session the facility selector owns: the
`current_facility_id` key, absent (`none`) until a facility is chosen. -/
structure SessionState where
  current_facility_id : Option Nat
deriving DecidableEq

/-- session.py `set_current_facility(facility_id)`: False for an
unauthenticated user or one without access; otherwise store the id in
the session and return True. -/
def set_current_facility (db : DB) (user : Option Staff) (s : SessionState)
    (facility_id : Nat) : SessionState × Bool :=
  match user with
  | none => (s, false)
  | some u =>
    if !(Staff.has_facility_access db u facility_id) then (s, false)
    else ({ current_facility_id := some facility_id }, true)

/-- session.py `get_current_facility()`: None when unauthenticated or no
facility id is stored (Python `if not facility_id` also treats a stored
0 as missing); re-validates with `has_facility_access` and, on failure,
pops the session key and returns None; on success fetches the Facility
row by primary key. -/
def get_current_facility (db : DB) (user : Option Staff) (s : SessionState) :
    SessionState × Option Facility :=
  match user with
  | none => (s, none)
  | some u =>
    match s.current_facility_id with
    | none => (s, none)
    | some fid =>
      if fid == 0 then (s, none)
      else if !(Staff.has_facility_access db u fid) then
        ({ current_facility_id := none }, none)
      else (s, db.facilities.find? (fun f => f.id == fid))

/-- session.py `get_user_facilities()`: empty for an unauthenticated
user, else `get_accessible_facilities` of the current user. -/
def get_user_facilities (db : DB) (user : Option Staff) : List Facility :=
  match user with
  | none => []
  | some u => Staff.get_accessible_facilities db u

/-! ## Audit recorder (common.py `AuditLog`, security.py `audit_log`) -/

/-- A JSON object snapshot (`before_json` / `after_json`): top-level keys
with opaque serialised values, in dict insertion order.  Values are kept
opaque as strings — the recorder only ever compares them for equality. -/
abbrev Snap : Type := List (String × String)

/-- A row of the `audit_logs` table (common.py, class `AuditLog`);
`actor_id` is a NOT NULL column, so it is a plain Nat.  Request-metadata
columns (ip, user agent, session id, timestamp) are not read by any of
the logic modelled here and are omitted. -/
structure AuditLog where
  actor_id : Nat
  action : String
  entity : String
  entity_id : Nat
  before_json : Option Snap
  after_json : Option Snap
deriving DecidableEq

/-- The error kind §7 of the specification reserves for a failed audit
append. -/
inductive AuditError where
  | auditWriteFailed
deriving DecidableEq

/-- security.py `audit_log(action, entity, entity_id, before_data,
after_data)`: does nothing for an unauthenticated user; otherwise builds
an `AuditLog` row attributed to `current_user.id` and tries to commit it.
`commit_ok` models whether the database commit succeeds; on failure the
exception is caught, logged, and the session rolled back — the entry is
not persisted and no error escapes to the caller (hence the result error
component is `none` on every path). -/
def audit_log (user : Option Staff) (action entity : String) (entity_id : Nat)
    (before_data after_data : Option Snap) (tbl : List AuditLog)
    (commit_ok : Bool) : List AuditLog × Option AuditError :=
  match user with
  | none => (tbl, none)
  | some u =>
    let entry : AuditLog := {
      actor_id := u.id
      action := action
      entity := entity
      entity_id := entity_id
      before_json := before_data
      after_json := after_data }
    if commit_ok then (tbl ++ [entry], none)
    else (tbl, none)

/-- common.py `AuditLog.has_changes`: either snapshot is not None
(`is not None` — an empty dict still counts). -/
def AuditLog.has_changes (log : AuditLog) : Bool :=
  log.before_json.isSome || log.after_json.isSome

/-- Python truthiness of a JSON-dict column: None and the empty dict are
falsy (used by `change_summary`'s `self.before_json and self.after_json`). -/
def snapTruthy (o : Option Snap) : Bool :=
  match o with
  | none => false
  | some s => !s.isEmpty

/-- Value of a top-level key in a snapshot (`self.before_json[key]`). -/
def snapLookup (s : Snap) (key : String) : Option String :=
  (s.find? (fun kv => kv.1 == key)).map Prod.snd

/-- The `changed_fields` accumulation inside common.py
`AuditLog.change_summary` (update branch): iterate the keys of the after
snapshot in order and keep those that are also keys of the before
snapshot and whose value differs between the two. -/
def changed_fields (before_json after_json : Snap) : List String :=
  (after_json.map Prod.fst).filter (fun key =>
    match snapLookup before_json key, snapLookup after_json key with
    | some b, some a => b != a
    | _, _ => false)

/-- Python `str.title()` restricted to the single-word action codes the
system uses (`'update'.title() = "Update"`). -/
def strTitle (s : String) : String := s.capitalize

/-- common.py `AuditLog.change_summary`: None without changes; fixed
messages for create/delete; for an update with truthy before and after
snapshots, "Updated <entity> <id>: " followed by the comma-joined changed
fields; otherwise the generic "<Action> <entity> <id>" message. -/
def AuditLog.change_summary (log : AuditLog) : Option String :=
  if !log.has_changes then none
  else if log.action == "create" then
    some ("Created " ++ log.entity ++ " with ID " ++ toString log.entity_id)
  else if log.action == "delete" then
    some ("Deleted " ++ log.entity ++ " with ID " ++ toString log.entity_id)
  else if log.action == "update" && snapTruthy log.before_json && snapTruthy log.after_json then
    match log.before_json, log.after_json with
    | some b, some a =>
      some ("Updated " ++ log.entity ++ " " ++ toString log.entity_id ++ ": " ++
        String.intercalate ", " (changed_fields b a))
    | _, _ => none
  else
    some (strTitle log.action ++ " " ++ log.entity ++ " " ++ toString log.entity_id)

/-! ## Permission-guarded handlers (security.py `require_permission`) -/

/-- The state a guarded mutating handler can touch: the audit table and
an abstract business state. -/
structure RunState where
  audit_logs : List AuditLog
  business : Nat
deriving DecidableEq

/-- security.py `require_permission(permission_code)` applied to a
handler: abort(401) when unauthenticated, abort(403) when
`has_permission` fails — in both cases the wrapped handler body never
runs and the state is untouched; otherwise the handler runs (HTTP 200
stands for the handler's own response). -/
def require_permission (permission_code : String) (handler : RunState → RunState)
    (user : Option Staff) (st : RunState) : RunState × Nat :=
  match user with
  | none => (st, 401)
  | some u =>
    if !(has_permission (some u) permission_code) then (st, 403)
    else (handler st, 200)

/-! ## Definitions taken from the specification's wording, for the
refinement comparisons (they are not code of the repository) -/

/-- Spec §4.4 wording of `hasAccess(actor, facility)`: an active grant
row with can-access=true exists for the pair AND the Facility itself is
active.  To be compared with `StaffFacility.has_access`, which omits the
facility-activity conjunct. -/
def hasAccessSpec (db : DB) (staff_id facility_id : Nat) : Bool :=
  db.staff_facilities.any (fun sf =>
    sf.staff_id == staff_id && sf.facility_id == facility_id &&
    sf.can_access && sf.is_active) &&
  db.facilities.any (fun f => f.id == facility_id && f.is_active)

/-- Spec §4.5 wording of the update change summary: the set of top-level
keys (of either snapshot) whose value differs between the before
snapshot and the after snapshot — a key present on one side only counts
as differing.  To be compared with `changed_fields`, which only examines
keys present in both snapshots. -/
def specChangedKeys (before_json after_json : Snap) : List String :=
  ((before_json.map Prod.fst) ++ (after_json.map Prod.fst)).dedup.filter
    (fun key => !(snapLookup before_json key == snapLookup after_json key))

/-! ## Concrete fixtures used by witnesses and counterexamples -/

/-- The Permission rows the seed step creates for the catalog, one per
`PERMISSIONS` entry, ids following insertion order. -/
def catalogPermissionRows : List Permission :=
  PERMISSIONS.enum.map (fun ic => { id := ic.1 + 1, code := ic.2.1 })

/-- A superadmin Role row holding the entire permission catalog, as
seeded from `ROLE_PERMISSIONS['superadmin']`. -/
def superadminRole : Role := ⟨17, "superadmin", catalogPermissionRows⟩

/-- An active staff member holding the superadmin role. -/
def exSuperStaff : Staff := ⟨8, "root@phc.test", some superadminRole, true⟩

/-- A deactivated staff member who nevertheless holds the superadmin
role with the full catalog. -/
def exInactiveStaff : Staff := ⟨5, "left@phc.test", some superadminRole, false⟩

/-- An inactive facility (soft-deleted site). -/
def exFacility1 : Facility := ⟨1, "PHC001", "Closed Branch", false⟩

/-- An active, can-access grant pointing at the inactive facility. -/
def exGrant1 : StaffFacility := ⟨1, 1, 1, true, false, false, true, false, some 9, true⟩

/-- The staff member holding `exGrant1`. -/
def exStaff1 : Staff := ⟨1, "a@phc.test", none, true⟩

/-- Store state: one inactive facility, one active grant to it. -/
def exDB1 : DB := ⟨[exFacility1], [exGrant1]⟩

/-- An active facility for the session scenarios. -/
def exFacility5 : Facility := ⟨3, "PHC002", "Main Clinic", true⟩

/-- The staff member of the session scenario. -/
def exStaff5 : Staff := ⟨2, "staff2@phc.test", none, true⟩

/-- An active grant of facility 3 to staff 2. -/
def exGrant5 : StaffFacility := ⟨2, 2, 3, true, false, false, true, false, some 9, true⟩

/-- Store state before revocation: the grant is active. -/
def exDB5 : DB := ⟨[exFacility5], [exGrant5]⟩

/-- Store state after revocation: the same grant soft-deactivated. -/
def exDB5' : DB := ⟨[exFacility5], [{ exGrant5 with is_active := false }]⟩

/-- An active facility for the assignment scenarios. -/
def exFacility6 : Facility := ⟨1, "PHC003", "East Clinic", true⟩

/-- A soft-revoked (is_active = false) grant row for staff 3 at
facility 1. -/
def exRevokedGrant6 : StaffFacility := ⟨4, 3, 1, true, false, false, true, false, some 9, false⟩

/-- Store state holding only the soft-revoked grant row for the pair. -/
def exDB6 : DB := ⟨[exFacility6], [exRevokedGrant6]⟩

/-- Store state with the facility and no grant rows at all. -/
def exDB6b : DB := ⟨[exFacility6], []⟩

/-- Capability checkboxes submitted on the assignment form. -/
def exCaps : GrantCaps := ⟨true, false, false, true, false⟩

/-- Two active facilities whose table order disagrees with name order:
"Beta Clinic" was inserted before "Alpha Clinic". -/
def facBeta : Facility := ⟨1, "F002", "Beta Clinic", true⟩

/-- See `facBeta`. -/
def facAlpha : Facility := ⟨2, "F001", "Alpha Clinic", true⟩

/-- Staff member granted both facilities of the ordering scenario. -/
def exStaff9 : Staff := ⟨4, "staff4@phc.test", none, true⟩

/-- Staff member with no grant rows at all. -/
def exStaffZ : Staff := ⟨99, "z@phc.test", none, true⟩

/-- Store state for the ordering scenario: both facilities granted to
staff 4, facility table in insertion order Beta, Alpha. -/
def exDB9 : DB := ⟨[facBeta, facAlpha],
  [⟨10, 4, 1, true, false, false, true, false, some 9, true⟩,
   ⟨11, 4, 2, true, false, false, true, false, some 9, true⟩]⟩

/-- An authenticated staff member for the audit scenarios. -/
def exStaff4 : Staff := ⟨6, "auditor@phc.test", none, true⟩

/-- A mutating handler body: bumps the abstract business state. -/
def exHandler : RunState → RunState :=
  fun st => { st with business := st.business + 1 }

/-- Initial handler state: empty audit table, business state 0. -/
def exState : RunState := ⟨[], 0⟩

/-- A permission row and a role for the grant/revoke scenario. -/
def exPerm : Permission := ⟨1, "patient_read"⟩

/-- A cashier-like role that does not hold `exPerm`. -/
def exRole8 : Role := ⟨2, "cashier", [⟨3, "payment_process"⟩]⟩

/-- Before snapshot of the update-summary counterexample. -/
def exBefore : Snap := [("phone", "555-0001")]

/-- After snapshot: `phone` unchanged, `email` newly added. -/
def exAfter : Snap := [("phone", "555-0001"), ("email", "x@phc.test")]

/-- The update audit entry for those snapshots. -/
def exLog10 : AuditLog := ⟨3, "update", "Patient", 7, some exBefore, some exAfter⟩

/-! ## Helper lemmas -/

/-- `.first() is not None` on a filtered query coincides with an
existence check: `find?` succeeds exactly when `any` holds. -/
theorem find?_isSome_eq_any (p : α → Bool) (l : List α) :
    (l.find? p).isSome = l.any p := by
  induction l with
  | nil => rfl
  | cons a t ih =>
    rw [List.find?_cons, List.any_cons]
    cases h : p a <;> simp [h, ih]

/-! ## Claims -/

/-- C1, counterexample: both grant-ledger access checks answer true for
an actor whose only grant points at a facility whose own `is_active`
flag is false, while the specified `hasAccess` (which also requires the
Facility itself to be active) answers false.  The claimed equivalence
therefore fails on this store state. -/
theorem C1_counterexample :
    exFacility1.is_active = false ∧
    exDB1.facilities = [exFacility1] ∧
    StaffFacility.has_access exDB1 1 1 = true ∧
    Staff.has_facility_access exDB1 exStaff1 1 = true ∧
    hasAccessSpec exDB1 1 1 = false := by
  decide

/-- C1, amended: `hasAccess(actor, facility)` is true iff an active
grant row with can-access=true exists for the (actor, facility) pair;
the Facility row's own active flag is not consulted.  Both entry points
(`Staff.has_facility_access` and `StaffFacility.has_access`) agree. -/
theorem C1_hasAccess_amended :
    ∀ (db : DB) (u : Staff) (facility_id : Nat),
    Staff.has_facility_access db u facility_id
        = StaffFacility.has_access db u.id facility_id ∧
    (StaffFacility.has_access db u.id facility_id = true ↔
      ∃ sf, sf ∈ db.staff_facilities ∧ sf.staff_id = u.id ∧
        sf.facility_id = facility_id ∧ sf.can_access = true ∧ sf.is_active = true) := by
  intro db u fid
  refine ⟨rfl, ?_⟩
  rw [StaffFacility.has_access, find?_isSome_eq_any, List.any_eq_true]
  constructor
  · rintro ⟨sf, hmem, hp⟩
    simp only [Bool.and_eq_true, beq_iff_eq] at hp
    exact ⟨sf, hmem, hp.1.1.1, hp.1.1.2, hp.1.2, hp.2⟩
  · rintro ⟨sf, hmem, h1, h2, h3, h4⟩
    exact ⟨sf, hmem, by simp [h1, h2, h3, h4]⟩

/-- C2: a deactivated actor is denied everything — `has_permission` and
`has_role` both answer false for every permission code and role name,
whatever role and permissions the actor holds. -/
theorem C2_inactive_actor_denied :
    ∀ (u : Staff) (permission_code role_name : String),
    u.active = false →
    has_permission (some u) permission_code = false ∧
    has_role (some u) role_name = false := by
  intro u code rn h
  constructor
  · simp [has_permission, h]
  · simp [has_role, h]

/-- C2 witness: a concrete deactivated actor holding the superadmin role
with the full catalog is still denied. -/
theorem C2_witness :
    has_permission (some exInactiveStaff) "patient_read" = false ∧
    has_role (some exInactiveStaff) "superadmin" = false :=
  C2_inactive_actor_denied exInactiveStaff "patient_read" "superadmin" rfl

/-- C3: a denied run of a permission-guarded handler (unauthenticated or
missing permission) leaves the whole state — audit table included —
untouched and never runs the handler body; and every entry `audit_log`
adds to the audit table is attributed to the authenticated actor's id. -/
theorem C3_guard_blocks_and_audit_attributes :
    ∀ (permission_code : String) (handler : RunState → RunState)
      (user : Option Staff) (st : RunState),
    (user = none →
      require_permission permission_code handler user st = (st, 401)) ∧
    (∀ u, user = some u → has_permission (some u) permission_code = false →
      require_permission permission_code handler user st = (st, 403)) ∧
    (∀ action entity entity_id before_data after_data tbl commit_ok e,
      e ∈ (audit_log user action entity entity_id before_data after_data tbl commit_ok).1 →
      e ∈ tbl ∨ ∃ u, user = some u ∧ e.actor_id = u.id) := by
  intro code handler user st
  refine ⟨?_, ?_, ?_⟩
  · rintro rfl; rfl
  · rintro u rfl h
    simp [require_permission, h]
  · intro action entity eid b a tbl ok e he
    cases user with
    | none => exact Or.inl he
    | some u =>
      cases ok with
      | false =>
        simp only [audit_log] at he
        exact Or.inl he
      | true =>
        rcases List.mem_append.mp he with h1 | h2
        · exact Or.inl h1
        · exact Or.inr ⟨u, rfl, by rw [List.mem_singleton.mp h2]⟩

/-- C3 witness: an unauthenticated request against a guarded handler is
rejected with 401 and the state is untouched. -/
theorem C3_witness :
    require_permission "patient_update" exHandler none exState = (exState, 401) :=
  (C3_guard_blocks_and_audit_attributes "patient_update" exHandler none exState).1 rfl

/-- C4: at the failing input — an authenticated actor, a business
mutation already committed, and a commit of the audit entry that fails —
`audit_log` swallows the failure: it returns with no `AuditError` and no
entry persisted, so the operation completes with the mutation
untracked, contrary to the claimed `AuditWriteFailed` propagation. -/
theorem C4_audit_failure_swallowed :
    audit_log (some exStaff4) "update" "Patient" 7
      (some exBefore) (some [("phone", "555-0002")]) [] false = ([], none) := rfl

/-- C5: if selecting facility F succeeded and the grant for (actor, F)
is then revoked (any later store state in which `has_facility_access` is
false), the next `get_current_facility` call clears the stored context
and returns none — never the stale facility.  `facility_id ≠ 0` reflects
that autoincrement row ids are positive (Python treats a stored 0 like a
missing key). -/
theorem C5_revoked_grant_clears_context :
    ∀ (db db' : DB) (u : Staff) (s : SessionState) (facility_id : Nat),
    facility_id ≠ 0 →
    (set_current_facility db (some u) s facility_id).2 = true →
    Staff.has_facility_access db' u facility_id = false →
    get_current_facility db' (some u) (set_current_facility db (some u) s facility_id).1
      = (⟨none⟩, none) := by
  intro db db' u s fid h0 hset hrev
  by_cases hacc : Staff.has_facility_access db u fid = true
  · simp only [set_current_facility, hacc, Bool.not_true, Bool.false_eq_true, if_false]
    have hz : (fid == 0) = false := beq_eq_false_iff_ne.mpr h0
    simp [get_current_facility, hz, hrev]
  · rw [Bool.not_eq_true] at hacc
    simp [set_current_facility, hacc] at hset

/-- C5 witness: staff 2 selects facility 3 while the grant is active;
after the grant row is soft-revoked the next read clears the session and
returns none. -/
theorem C5_witness :
    get_current_facility exDB5' (some exStaff5)
      (set_current_facility exDB5 (some exStaff5) ⟨none⟩ 3).1 = (⟨none⟩, none) :=
  C5_revoked_grant_clears_context exDB5 exDB5' exStaff5 ⟨none⟩ 3
    (by decide) (by decide) (by decide)

/-- C6, counterexample: the only grant row for the pair (staff 3,
facility 1) is soft-revoked (`is_active = false`), yet `assign_staff`
still refuses with the duplicate warning and writes nothing — creating a
new active grant after a soft revoke does not succeed. -/
theorem C6_counterexample :
    exDB6.staff_facilities = [exRevokedGrant6] ∧
    exRevokedGrant6.is_active = false ∧
    assign_staff exDB6 9 5 3 1 exCaps = (exDB6, AssignOutcome.alreadyAssigned) := by
  decide

/-- C6, amended: `assign_staff` fails with the duplicate-pair outcome
(and leaves the store untouched) whenever any grant row — active or
soft-revoked — exists for the (staff, facility) pair, and inserts
exactly one fresh active row only when no row at all exists for the
pair. -/
theorem C6_assign_staff_amended :
    ∀ (db : DB) (current_user_id new_id staff_id facility_id : Nat) (caps : GrantCaps),
    ((∃ sf ∈ db.staff_facilities,
        sf.staff_id = staff_id ∧ sf.facility_id = facility_id) →
      assign_staff db current_user_id new_id staff_id facility_id caps
        = (db, AssignOutcome.alreadyAssigned)) ∧
    ((∀ sf ∈ db.staff_facilities,
        ¬(sf.staff_id = staff_id ∧ sf.facility_id = facility_id)) →
      ∃ row, assign_staff db current_user_id new_id staff_id facility_id caps
          = ({ db with staff_facilities := db.staff_facilities ++ [row] },
             AssignOutcome.assigned) ∧
        row.staff_id = staff_id ∧ row.facility_id = facility_id ∧
        row.is_active = true ∧ row.can_access = caps.can_access) := by
  intro db cu nid sid fid caps
  constructor
  · rintro ⟨sf, hmem, h1, h2⟩
    cases hf : db.staff_facilities.find?
        (fun sf => sf.staff_id == sid && sf.facility_id == fid) with
    | none =>
      rw [List.find?_eq_none] at hf
      exact absurd (by simp [h1, h2]) (hf sf hmem)
    | some x =>
      simp [assign_staff, hf]
  · intro hall
    have hf : db.staff_facilities.find?
        (fun sf => sf.staff_id == sid && sf.facility_id == fid) = none := by
      rw [List.find?_eq_none]
      intro sf hmem hc
      simp only [Bool.and_eq_true, beq_iff_eq] at hc
      exact hall sf hmem hc
    refine ⟨{ id := nid, staff_id := sid, facility_id := fid,
              can_access := caps.can_access,
              can_manage_staff := caps.can_manage_staff,
              can_manage_facility := caps.can_manage_facility,
              can_view_reports := caps.can_view_reports,
              can_export_data := caps.can_export_data,
              assigned_by_id := some cu, is_active := true },
            ?_, rfl, rfl, rfl, rfl⟩
    simp [assign_staff, hf]

/-- C6 witness: with no grant row at all for the pair, the assignment
succeeds and appends one fresh active row. -/
theorem C6_witness :
    ∃ row, assign_staff exDB6b 9 5 3 1 exCaps
        = ({ exDB6b with staff_facilities := exDB6b.staff_facilities ++ [row] },
           AssignOutcome.assigned) ∧
      row.staff_id = 3 ∧ row.facility_id = 1 ∧ row.is_active = true ∧
      row.can_access = exCaps.can_access :=
  (C6_assign_staff_amended exDB6b 9 5 3 1 exCaps).2 (by decide)

/-- C7: for an active actor holding the superadmin role — a role
granted the entire permission catalog — and any catalog permission code,
the guard's superadmin short-circuit in `has_permission` decides exactly
as the general membership check `Role.has_permission` would, both
allowing. -/
theorem C7_superadmin_shortcut_equivalent :
    ∀ (u : Staff) (r : Role) (permission_code : String),
    u.active = true → u.role = some r → r.name = "superadmin" →
    (∀ c ∈ ROLE_PERMISSIONS_superadmin, Role.has_permission r c = true) →
    permission_code ∈ ROLE_PERMISSIONS_superadmin →
    has_permission (some u) permission_code = Role.has_permission r permission_code ∧
    has_permission (some u) permission_code = true := by
  intro u r code hact hrole hname hall hcode
  have h1 : Role.has_permission r code = true := hall code hcode
  have h2 : has_permission (some u) code = true := by
    simp [has_permission, has_role, hact, hrole, hname]
  exact ⟨by rw [h1, h2], h2⟩

/-- C7 witness: the concrete superadmin actor with the seeded
full-catalog role, at the catalog code `invoice_finalize`. -/
theorem C7_witness :
    has_permission (some exSuperStaff) "invoice_finalize"
        = Role.has_permission superadminRole "invoice_finalize" ∧
    has_permission (some exSuperStaff) "invoice_finalize" = true :=
  C7_superadmin_shortcut_equivalent exSuperStaff superadminRole "invoice_finalize"
    rfl rfl rfl (by decide) (by decide)

/-- C8: granting then querying answers true; revoking then querying
answers false; and both operations are idempotent.  The two hypotheses
mirror the database uniqueness constraints: permission codes are unique
(`permissions.code UNIQUE`), and the role-permission association holds
no duplicate pairs (composite primary key). -/
theorem C8_grant_revoke_idempotent :
    ∀ (r : Role) (p : Permission),
    (∀ q ∈ r.permissions, q.code = p.code → q = p) →
    r.permissions.Nodup →
    Role.has_permission (Role.add_permission r p) p.code = true ∧
    Role.has_permission (Role.remove_permission r p) p.code = false ∧
    Role.add_permission (Role.add_permission r p) p = Role.add_permission r p ∧
    Role.remove_permission (Role.remove_permission r p) p
      = Role.remove_permission r p := by
  intro r p hcode hnd
  refine ⟨?_, ?_, ?_, ?_⟩
  · by_cases h : p ∈ r.permissions
    · simp only [Role.add_permission, if_pos h, Role.has_permission]
      rw [List.any_eq_true]
      exact ⟨p, h, by simp⟩
    · simp only [Role.add_permission, if_neg h, Role.has_permission]
      rw [List.any_eq_true]
      exact ⟨p, by simp, by simp⟩
  · by_cases h : p ∈ r.permissions
    · simp only [Role.remove_permission, if_pos h, Role.has_permission]
      rw [List.any_eq_false]
      intro q hq
      have hq' : q ∈ r.permissions := List.mem_of_mem_erase hq
      simp only [beq_iff_eq]
      intro hc
      have hqp : q = p := hcode q hq' hc
      subst hqp
      exact hnd.not_mem_erase hq
    · simp only [Role.remove_permission, if_neg h, Role.has_permission]
      rw [List.any_eq_false]
      intro q hq
      simp only [beq_iff_eq]
      intro hc
      exact h (hcode q hq hc ▸ hq)
  · by_cases h : p ∈ r.permissions <;>
      simp [Role.add_permission, h]
  · by_cases h : p ∈ r.permissions
    · have hpe : p ∉ r.permissions.erase p := hnd.not_mem_erase
      simp [Role.remove_permission, h, hpe]
    · simp [Role.remove_permission, h]

/-- C8 witness: the cashier-like role and the `patient_read` permission
row. -/
theorem C8_witness :
    Role.has_permission (Role.add_permission exRole8 exPerm) exPerm.code = true ∧
    Role.has_permission (Role.remove_permission exRole8 exPerm) exPerm.code = false ∧
    Role.add_permission (Role.add_permission exRole8 exPerm) exPerm
      = Role.add_permission exRole8 exPerm ∧
    Role.remove_permission (Role.remove_permission exRole8 exPerm) exPerm
      = Role.remove_permission exRole8 exPerm :=
  C8_grant_revoke_idempotent exRole8 exPerm (by decide) (by decide)

/-- C9, counterexample: with the facility table holding "Beta Clinic"
before "Alpha Clinic" and both granted, the accessible-facilities list
comes back in table order Beta, Alpha — not ordered by facility name,
since "Alpha Clinic" sorts strictly before "Beta Clinic" (lexicographic
on the character lists). -/
theorem C9_counterexample :
    (Staff.get_accessible_facilities exDB9 exStaff9).map Facility.name
        = ["Beta Clinic", "Alpha Clinic"] ∧
    "Alpha Clinic".data < "Beta Clinic".data := by
  constructor
  · decide
  · decide

/-- C9, amended: `get_accessible_facilities` returns exactly the active
facilities for which `has_access` holds, in facility-table order rather
than ordered by name; an actor with no grant rows at all gets the empty
list. -/
theorem C9_list_accessible_amended :
    ∀ (db : DB) (u : Staff),
    Staff.get_accessible_facilities db u
        = db.facilities.filter
            (fun f => f.is_active && StaffFacility.has_access db u.id f.id) ∧
    (db.staff_facilities.filter (fun sf => sf.staff_id == u.id) = [] →
      Staff.get_accessible_facilities db u = []) ∧
    (∀ f, f ∈ Staff.get_accessible_facilities db u ↔
      (f ∈ db.facilities ∧ f.is_active = true ∧
        StaffFacility.has_access db u.id f.id = true)) := by
  intro db u
  have h1 : Staff.get_accessible_facilities db u
      = db.facilities.filter
          (fun f => f.is_active && StaffFacility.has_access db u.id f.id) := by
    unfold Staff.get_accessible_facilities
    refine List.filter_congr ?_
    intro f _
    rw [StaffFacility.has_access, find?_isSome_eq_any]
  refine ⟨h1, ?_, ?_⟩
  · intro hempty
    rw [h1, List.filter_eq_nil_iff]
    intro f _ hcontra
    rw [Bool.and_eq_true] at hcontra
    obtain ⟨_, hacc⟩ := hcontra
    obtain ⟨sf, hsf, hp⟩ := List.find?_isSome.mp hacc
    simp only [Bool.and_eq_true, beq_iff_eq] at hp
    rw [List.filter_eq_nil_iff] at hempty
    exact (hempty sf hsf) (by simp [hp.1.1.1])
  · intro f
    rw [h1]
    simp [List.mem_filter, Bool.and_eq_true, and_assoc]

/-- C9 witness: the actor with no grant rows at all receives the empty
list. -/
theorem C9_witness :
    Staff.get_accessible_facilities exDB9 exStaffZ = [] :=
  (C9_list_accessible_amended exDB9 exStaffZ).2.1 (by decide)

/-- C10, counterexample: the after snapshot adds the key `email`, whose
value certainly differs between the snapshots (it is absent from the
before snapshot), yet the recorder's changed-fields computation reports
nothing: it only examines keys present in both snapshots. -/
theorem C10_counterexample :
    changed_fields exBefore exAfter = [] ∧
    specChangedKeys exBefore exAfter = ["email"] ∧
    AuditLog.change_summary exLog10 = some "Updated Patient 7: " := by
  decide

/-- C10, amended: for an update entry the changed-fields set is exactly
the top-level keys present in both snapshots whose values differ (keys
added or removed between the snapshots are not reported); when only the
`phone` key's value differs and both snapshots carry the same keys,
`phone` is the sole changed key. -/
theorem C10_changed_fields_amended :
    (∀ (before_json after_json : Snap) (k : String),
      k ∈ changed_fields before_json after_json ↔
        (k ∈ after_json.map Prod.fst ∧
          ∃ vb va, snapLookup before_json k = some vb ∧
            snapLookup after_json k = some va ∧ vb ≠ va)) ∧
    changed_fields [("name", "N. Patient"), ("phone", "555-0001")]
        [("name", "N. Patient"), ("phone", "555-0002")] = ["phone"] := by
  constructor
  · intro b a k
    unfold changed_fields
    rw [List.mem_filter]
    constructor
    · rintro ⟨hmem, hp⟩
      refine ⟨hmem, ?_⟩
      rcases hb : snapLookup b k with _ | vb <;>
        rcases ha : snapLookup a k with _ | va <;>
        rw [hb, ha] at hp <;> simp at hp
      exact ⟨vb, va, rfl, rfl, hp⟩
    · rintro ⟨hmem, vb, va, hb, ha, hne⟩
      refine ⟨hmem, ?_⟩
      rw [hb, ha]
      simpa using hne
  · decide

end PHC
